import Mathlib

/-!
Shallow embedding of `src/favicon.py` (invasy/get-favicon) and proofs about it.

The Python functions `get_favicon_url`, `get_filename`, `get_favicon`,
`get_favicons` and `get_dokuwiki_interwiki_icons` are translated into pure
Lean functions.  HTTP traffic and the filesystem are abstracted into an
explicit environment (`Env`) mapping URLs to responses and a list of existing
file paths; observable side effects (requests, log lines, prints, file
writes, image resampling calls) are collected as a trace of `Event`s, and
Python exceptions are modelled with `Except PyError`.
-/

/-- Python `str.startswith`: the first string starts with the second. -/
def startsWithStr (s p : String) : Bool := p.data.isPrefixOf s.data

/-- Split a character list at the first occurrence of `sep`, returning the
parts before and after it, or `none` when `sep` does not occur.  This is the
helper behind scheme detection in `urlparse`. -/
def splitFirstChar (sep : Char) : List Char → Option (List Char × List Char)
  | [] => none
  | c :: cs =>
    if c = sep then some ([], cs)
    else
      match splitFirstChar sep cs with
      | some (l, r) => some (c :: l, r)
      | none => none

/-- The characters CPython's `urllib.parse` allows in a URL scheme. -/
def schemeChar (c : Char) : Bool := c.isAlpha || c.isDigit || c == '+' || c == '-' || c == '.'

/-- The result of Python's `urllib.parse.urlparse`, restricted to the fields
the program reads (`scheme`, `netloc`, `path`). -/
structure ParsedUrl where
  scheme : String
  netloc : String
  path : String
deriving DecidableEq

/-- `urllib.parse.urlparse`, for the three fields used by `favicon.py`:
a leading `name:` with `name` nonempty and made of scheme characters is the
scheme (lower-cased); a following `//` introduces the netloc, running up to
the next `/`, `?` or `#`; the path is the remainder up to `?` or `#`. -/
def urlparse (url : String) : ParsedUrl :=
  let cs := url.data
  let p1 : List Char × List Char :=
    match splitFirstChar ':' cs with
    | some (pre, post) =>
      if pre ≠ [] ∧ pre.all schemeChar then (pre.map Char.toLower, post) else ([], cs)
    | none => ([], cs)
  let p2 : List Char × List Char :=
    match p1.2 with
    | '/' :: '/' :: r =>
      (r.takeWhile (fun c => ¬(c = '/' ∨ c = '?' ∨ c = '#')),
       r.dropWhile (fun c => ¬(c = '/' ∨ c = '?' ∨ c = '#')))
    | _ => ([], p1.2)
  let path := p2.2.takeWhile (fun c => ¬(c = '?' ∨ c = '#'))
  ⟨String.mk p1.1, String.mk p2.1, String.mk path⟩

/-- Python `posixpath.split`: the part up to the last `/` (with trailing
slashes stripped unless the head is all slashes) and the part after it. -/
def osPathSplit (p : String) : String × String :=
  let cs := p.data
  let tail := (cs.reverse.takeWhile (fun c => c ≠ '/')).reverse
  let head := cs.take (cs.length - tail.length)
  let head2 :=
    if head ≠ [] ∧ ¬ head.all (fun c => c = '/') then
      (head.reverse.dropWhile (fun c => c = '/')).reverse
    else head
  (String.mk head2, String.mk tail)

/-- Index of the last occurrence of `c` in `cs`, if any (Python `str.rfind`). -/
def rfindChar (c : Char) (cs : List Char) : Option Nat :=
  match cs.reverse.findIdx? (fun d => d = c) with
  | some i => some (cs.length - 1 - i)
  | none => none

/-- Python `posixpath.splitext`: split off the extension at the last `.`,
provided it lies after the last `/` and the basename has a character other
than `.` before it. -/
def osPathSplitExt (p : String) : String × String :=
  let cs := p.data
  let sepIndex := rfindChar '/' cs
  match rfindChar '.' cs with
  | none => (p, "")
  | some d =>
    let s : Nat := match sepIndex with | none => 0 | some si => si + 1
    let gt : Bool := match sepIndex with | none => true | some si => decide (si < d)
    if gt ∧ ((cs.drop s).take (d - s)).any (fun c => c ≠ '.') then
      (String.mk (cs.take d), String.mk (cs.drop d))
    else (p, "")

/-- Whether a string ends with `/` (used by `posixpath.join`). -/
def endsWithSlash (s : String) : Bool :=
  match s.data.getLast? with
  | some c => c = '/'
  | none => false

/-- Python `posixpath.join` for two components. -/
def osPathJoin (a b : String) : String :=
  if startsWithStr b "/" then b
  else if a = "" ∨ endsWithSlash a then a ++ b
  else a ++ "/" ++ b

/-- Python whitespace for `str.strip` and ASCII `\s`. -/
def pyIsSpace (c : Char) : Bool :=
  c = ' ' || c = '\t' || c = '\n' || c = '\r' || c = '\x0b' || c = '\x0c'

/-- Python `str.strip()`. -/
def pyStrip (s : String) : String :=
  String.mk (((s.data.dropWhile pyIsSpace).reverse.dropWhile pyIsSpace).reverse)

/-- Split a character list on a separator character; always at least one
group, empty groups kept (Python `str.split` with an explicit separator). -/
def splitOnChar (sep : Char) (cs : List Char) : List (List Char) :=
  cs.foldr
    (fun c acc =>
      match acc with
      | [] => [[c]]
      | g :: gs => if c = sep then [] :: g :: gs else (c :: g) :: gs)
    [[]]

/-- Python `str.split(sep)` for a one-character separator. -/
def pySplitOn (sep : Char) (s : String) : List String :=
  (splitOnChar sep s.data).map String.mk

/-- `EXCLUDED_DOMAINS` from `favicon.py`. -/
def EXCLUDED_DOMAINS : List String := ["www", "com", "org", "net", "ru"]

/-- A decoded PIL image, restricted to the attributes the program reads:
`format`, dimensions, and — for ICO files — the set of natively embedded
frame sizes (`favicon.ico.sizes()`). -/
structure PyImage where
  format : String
  width : Nat
  height : Nat
  icoSizes : List (Nat × Nat)
deriving DecidableEq

/-- An HTTP response, restricted to what the program reads: status code,
`Location` header, final URL, the `href` of a `<link rel="icon">` element
found in the body (if any), and the decoded image the body yields
(`none` = `Image.open` fails). -/
structure HttpResponse where
  status : Nat
  location : Option String
  finalUrl : String
  linkIconHref : Option String
  image : Option PyImage
deriving DecidableEq

/-- `requests.Response.is_redirect`: a `Location` header is present and the
status is one of the redirect statuses. -/
def HttpResponse.isRedirect (r : HttpResponse) : Bool :=
  r.location.isSome &&
    (r.status == 301 || r.status == 302 || r.status == 303 || r.status == 307 || r.status == 308)

/-- The Python exceptions the program can raise or catch. -/
inductive PyError where
  | connectionError (url : String)
  | httpStatusError (status : Nat)
  | imageDecodeError
  | genericError (msg : String)
deriving DecidableEq

/-- Observable side effects, collected as a trace. -/
inductive Event where
  | netGet (url : String)
  | netHead (url : String)
  | printOut (s : String)
  | logDebug (msg : String)
  | logInfo (msg : String)
  | logError (msg : String)
  | deriveName (url favicon_url : String)
  | icoExtract
  | resampleBicubic
  | fsWrite (filename : String)
deriving DecidableEq

/-- The external world: HTTP GET and HEAD as functions from URL to either an
exception (e.g. `requests.ConnectionError`) or a response. -/
structure Env where
  httpGet : String → Except PyError HttpResponse
  httpHead : String → Except PyError HttpResponse

/-- Sequencing for trace-producing fallible computations: events of the first
step are kept even when it raises (Python side effects persist across
exceptions). -/
def bindE {α β : Type} (x : List Event × Except PyError α)
    (f : α → List Event × Except PyError β) : List Event × Except PyError β :=
  match x with
  | (evs, Except.error e) => (evs, Except.error e)
  | (evs, Except.ok a) =>
    let r := f a
    (evs ++ r.1, r.2)

/-- The resolution step at the end of `get_favicon_url` (lines 47-55 of
`favicon.py`): protocol-relative, root-relative and relative references are
made absolute against the parsed page URL; anything starting with `http` is
returned unchanged. -/
def resolveFaviconUrl (parsed : ParsedUrl) (favicon_url : String) : String :=
  if startsWithStr favicon_url "//" then
    parsed.scheme ++ ":" ++ favicon_url
  else if startsWithStr favicon_url "/" then
    parsed.scheme ++ "://" ++ parsed.netloc ++ favicon_url
  else if !(startsWithStr favicon_url "http") then
    parsed.scheme ++ "://" ++ parsed.netloc ++ "/" ++ (osPathSplit parsed.path).1 ++ "/" ++ favicon_url
  else favicon_url

/-- One probe of a default favicon location (the body of the `for ext` loop
in `get_favicon_url`): a HEAD request; a redirect answer yields the
`Location` header, a 200 answer yields the final URL, anything else yields
nothing and the loop moves on. -/
def tryDefaultLoc (env : Env) (basename ext : String) :
    List Event × Except PyError (Option String) :=
  ([Event.netHead (basename ++ ext)],
   match env.httpHead (basename ++ ext) with
   | Except.error e => Except.error e
   | Except.ok resp =>
     if resp.isRedirect then
       match resp.location with
       | some loc => Except.ok (some loc)
       | none => Except.error (PyError.genericError "KeyError: Location")
     else if resp.status = 200 then Except.ok (some resp.finalUrl)
     else Except.ok none)

/-- The `for ext in ['png', 'ico']` loop of `get_favicon_url`: first match
wins, no match leaves the favicon URL empty. -/
def faviconFromDefaults (env : Env) (basename : String) :
    List String → List Event × Except PyError String
  | [] => ([], Except.ok "")
  | ext :: rest =>
    bindE (tryDefaultLoc env basename ext) fun r =>
      match r with
      | some u => ([], Except.ok u)
      | none => faviconFromDefaults env basename rest

/-- `get_favicon_url` (lines 23-56 of `favicon.py`): GET the page (network
errors propagate); on a 200 answer take the `href` of a `<link rel="icon">`
element; if that left the reference empty, probe
`{scheme}://{netloc}/favicon.png` then `.ico`; finally resolve a nonempty
reference to an absolute URL. -/
def get_favicon_url (env : Env) (url : String) : List Event × Except PyError String :=
  let parsed := urlparse url
  bindE ([Event.netGet url], env.httpGet url) fun resp =>
    let favicon_url :=
      if resp.status = 200 then
        match resp.linkIconHref with
        | some h => h
        | none => ""
      else ""
    bindE
      (if favicon_url = "" then
        faviconFromDefaults env (parsed.scheme ++ "://" ++ parsed.netloc ++ "/favicon.") ["png", "ico"]
      else ([], Except.ok favicon_url))
      fun f => ([], Except.ok (if f = "" then "" else resolveFaviconUrl parsed f))

/-- `get_filename` (lines 59-61 of `favicon.py`). -/
def get_filename (url favicon_url : String) (png : Bool) : String :=
  let ext := if png then ".png" else (osPathSplitExt (urlparse favicon_url).path).2
  String.intercalate "-"
      ((pySplitOn '.' (urlparse url).netloc).filter (fun d => !(EXCLUDED_DOMAINS.contains d)))
    ++ ext

/-- `requests.Response.raise_for_status`: raises an `HTTPError` carrying the
status exactly when the status is in 400-599. -/
def raiseForStatus (status : Nat) : Except PyError Unit :=
  if 400 ≤ status ∧ status < 600 then Except.error (PyError.httpStatusError status)
  else Except.ok ()

/-- `get_favicon` (lines 64-81 of `favicon.py`): GET the favicon URL, call
`raise_for_status` on a non-`ok` status, decode the body with `Image.open`,
on a positive resize either extract a natively embedded ICO frame of the
requested square size or resample bicubically, then save the file. -/
def get_favicon (env : Env) (url : String) (filename : String) (resize : Nat) :
    List Event × Except PyError Unit :=
  bindE ([Event.logDebug ("trying to get favicon from " ++ url), Event.netGet url],
      env.httpGet url) fun resp =>
    bindE ([], if resp.status ≠ 200 then raiseForStatus resp.status else Except.ok ()) fun _ =>
      match resp.image with
      | none => ([], Except.error PyError.imageDecodeError)
      | some favicon =>
        let sizeEvs := [Event.logDebug (favicon.format ++ " at " ++ resp.finalUrl)]
        if 0 < resize then
          if favicon.format = "ICO" ∧ (resize, resize) ∈ favicon.icoSizes then
            (sizeEvs ++ [Event.icoExtract, Event.logDebug "resized", Event.fsWrite filename],
             Except.ok ())
          else
            (sizeEvs ++ [Event.resampleBicubic, Event.logDebug "resized", Event.fsWrite filename],
             Except.ok ())
        else (sizeEvs ++ [Event.fsWrite filename], Except.ok ())

/-- The scheme normalization at the top of the `get_favicons` loop
(lines 87-88 of `favicon.py`): `if not url.startswith('http'): url = 'https://' + url`. -/
def normalizeUrl (url : String) : String :=
  if startsWithStr url "http" then url else "https://" ++ url

/-- The messages of the three `except` handlers shared by both batch drivers
(message texts abbreviated; only the error level matters to the drivers). -/
def errMsg : PyError → String
  | PyError.connectionError u => "cannot connect to " ++ u
  | PyError.httpStatusError s => "requests: HTTP status " ++ toString s
  | PyError.imageDecodeError => "cannot identify image file"
  | PyError.genericError m => m

/-- The `try` body of one iteration of the `get_favicons` loop (lines 87-100
of `favicon.py`).  Returns the trace, the (possibly lazily defaulted)
`output_dir` that persists into later iterations, and the outcome. -/
def processUrlBody (env : Env) (url output_dir : String) (png : Bool) (resize : Nat)
    (download : Bool) : List Event × String × Except PyError Unit :=
  let url1 := normalizeUrl url
  match get_favicon_url env url1 with
  | (evs, Except.error e) => (evs, output_dir, Except.error e)
  | (evs, Except.ok favicon_url) =>
    if favicon_url = "" then
      (evs, output_dir, Except.error (PyError.genericError
        ("cannot find favicon for URL " ++ url1)))
    else if download then
      let od := if output_dir = "" then "." else output_dir
      let filename := osPathJoin od (get_filename url1 favicon_url png)
      let r := get_favicon env favicon_url filename resize
      (evs ++ [Event.deriveName url1 favicon_url] ++ r.1, od, r.2)
    else (evs ++ [Event.printOut favicon_url], output_dir, Except.ok ())

/-- `get_favicons` (lines 84-106 of `favicon.py`): one iteration per URL,
every exception of the body caught and logged at error level, the loop
carrying the mutated `output_dummy` default onwards. -/
def get_favicons (env : Env) (urls : List String) (output_dir : String) (png : Bool)
    (resize : Nat) (download : Bool) : List Event :=
  match urls with
  | [] => []
  | url :: rest =>
    match processUrlBody env url output_dir png resize download with
    | (evs, od, Except.ok _) => evs ++ get_favicons env rest od png resize download
    | (evs, od, Except.error e) =>
      evs ++ [Event.logError (errMsg e)] ++ get_favicons env rest od png resize download

/-- A character of the interwiki name class `[-0-9.a-z_]`. -/
def interwikiNameChar (c : Char) : Bool :=
  c = '-' || ('0' ≤ c ∧ c ≤ '9') || ('a' ≤ c ∧ c ≤ 'z') || c = '.' || c = '_'

/-- `re.fullmatch(r'([-0-9.a-z_]+)\s+(.*)', line.strip(), flags=re.ASCII)`:
a nonempty maximal run of name characters, at least one ASCII whitespace
character, then the rest (which `.` cannot let contain a newline). -/
def interwikiMatch (line : String) : Option (String × String) :=
  let cs := (pyStrip line).data
  let r1 := cs.takeWhile interwikiNameChar
  let rest := cs.dropWhile interwikiNameChar
  let sp := rest.takeWhile pyIsSpace
  let rest2 := rest.dropWhile pyIsSpace
  if r1 = [] ∨ sp = [] ∨ rest2.any (fun c => c = '\n') then none
  else some (String.mk r1, String.mk rest2)

/-- The `try` body of one line of `get_dokuwiki_interwiki_icons`
(lines 117-130 of `favicon.py`).  `fs` is the set of files that exist
(`os.path.isfile`); a successful save adds the destination to it. -/
def processEntryBody (env : Env) (fs : List String) (images_dir : String) (force : Bool)
    (line : String) : List Event × List String × Except PyError Unit :=
  match interwikiMatch line with
  | none => ([], fs, Except.ok ())
  | some (name, rest) =>
    let filename := osPathJoin images_dir (name ++ ".png")
    if fs.contains filename && !force then
      ([Event.logInfo (name ++ ": icon exists - skip")], fs, Except.ok ())
    else
      let pu := urlparse rest
      let url := pu.scheme ++ "://" ++ pu.netloc ++ "/"
      match get_favicon_url env url with
      | (evs, Except.error e) => (evs, fs, Except.error e)
      | (evs, Except.ok favicon_url) =>
        if favicon_url = "" then
          (evs ++ [Event.logError (name ++ ": cannot find favicon for URL " ++ url)],
           fs, Except.ok ())
        else
          match get_favicon env favicon_url filename 16 with
          | (evs2, Except.error e) => (evs ++ evs2, fs, Except.error e)
          | (evs2, Except.ok _) =>
            (evs ++ evs2 ++ [Event.logInfo (name ++ ": icon saved as " ++ filename)],
             filename :: fs, Except.ok ())

/-- One line of the interwiki scan with its per-entry `except` handlers
(lines 116-140 of `favicon.py`): every exception of the body is caught,
logged at error level, and turned into a normal continuation. -/
def handleEntry (env : Env) (fs : List String) (images_dir : String) (force : Bool)
    (line : String) : List Event × List String :=
  match processEntryBody env fs images_dir force line with
  | (evs, fs2, Except.ok _) => (evs, fs2)
  | (evs, fs2, Except.error e) => (evs ++ [Event.logError (errMsg e)], fs2)

/-- The file scan of `get_dokuwiki_interwiki_icons` (lines 114-140 of
`favicon.py`), over the lines of `interwiki.local.conf` (directory creation
and file opening abstracted away): one handled entry per line, threading the
filesystem.  Returns one trace per line and the final filesystem. -/
def get_dokuwiki_interwiki_icons (env : Env) (fs : List String) (images_dir : String)
    (force : Bool) : List String → List (List Event) × List String
  | [] => ([], fs)
  | line :: rest =>
    let r := handleEntry env fs images_dir force line
    let r2 := get_dokuwiki_interwiki_icons env r.2 images_dir force rest
    (r.1 :: r2.1, r2.2)

/-- A nonempty scheme name: a letter followed by scheme characters.  This is
the spec-side notion used by "fully qualified absolute URL" and "has a
scheme". -/
def validSchemeChars : List Char → Bool
  | [] => false
  | c :: cs => c.isAlpha && cs.all schemeChar

/-- Modelled from the spec: whether a string begins with a valid scheme name
followed by a colon (a URL "has a scheme"). -/
def hasScheme (s : String) : Bool :=
  match splitFirstChar ':' s.data with
  | some (pre, _) => validSchemeChars pre
  | none => false

/-- Modelled from the spec: a "fully qualified absolute URL" begins with a
valid scheme name followed by `://`. -/
def isAbsoluteUrl (s : String) : Bool :=
  match splitFirstChar ':' s.data with
  | some (pre, rest) => validSchemeChars pre && ['/', '/'].isPrefixOf rest
  | none => false

/-- Modelled from the spec: filename derivation as §4.2 words it — extension
`.png` when PNG conversion is forced, else the favicon URL path's extension;
base name the page URL's host split on `.`, excluded tokens removed, joined
with `-`. -/
def deriveFilenameSpec (pageURL faviconURL : String) (usePng : Bool) : String :=
  let ext := if usePng then ".png" else (osPathSplitExt (urlparse faviconURL).path).2
  let tokens :=
    (pySplitOn '.' (urlparse pageURL).netloc).filter (fun t => !(EXCLUDED_DOMAINS.contains t))
  String.intercalate "-" tokens ++ ext

/-- An environment where every request raises `requests.ConnectionError`. -/
def envNoNet : Env :=
  ⟨fun u => Except.error (PyError.connectionError u),
   fun u => Except.error (PyError.connectionError u)⟩

/-- A 200 page response declaring `<link rel="icon" href={href}>`. -/
def respLink (href : String) : HttpResponse :=
  { status := 200, location := none, finalUrl := "https://example.com/",
    linkIconHref := some href, image := none }

/-- An environment whose every GET answers `respLink href` and whose HEADs
raise connection errors. -/
def envLink (href : String) : Env :=
  ⟨fun _ => Except.ok (respLink href),
   fun u => Except.error (PyError.connectionError u)⟩

/-- Holds a 304 body that decodes as a PNG, to exercise the no-raise path of
`get_favicon` on a non-2xx status. -/
def img16 : PyImage := { format := "PNG", width := 16, height := 16, icoSizes := [] }

/-- A `304 Not Modified` response whose body decodes as an image. -/
def resp304 : HttpResponse :=
  { status := 304, location := none, finalUrl := "https://example.com/favicon.ico",
    linkIconHref := none, image := some img16 }

/-- An environment whose every GET answers `resp304`. -/
def env304 : Env :=
  ⟨fun _ => Except.ok resp304, fun u => Except.error (PyError.connectionError u)⟩

/-- A `404 Not Found` response. -/
def resp404 : HttpResponse :=
  { status := 404, location := none, finalUrl := "", linkIconHref := none, image := none }

/-- An environment whose every GET answers `resp404`. -/
def env404 : Env :=
  ⟨fun _ => Except.ok resp404, fun u => Except.error (PyError.connectionError u)⟩

/-- An ICO image with native 16 and 32 pixel frames. -/
def icoImg : PyImage :=
  { format := "ICO", width := 32, height := 32, icoSizes := [(16, 16), (32, 32)] }

/-- A 200 response whose body decodes to `icoImg`. -/
def respIco : HttpResponse :=
  { status := 200, location := none, finalUrl := "https://example.com/favicon.ico",
    linkIconHref := none, image := some icoImg }

/-- An environment whose every GET answers `respIco`. -/
def envIco : Env :=
  ⟨fun _ => Except.ok respIco, fun u => Except.error (PyError.connectionError u)⟩

/-- Replace the icon `href` the page at `url` declares, leaving everything
else of the environment unchanged. -/
def envSetHref (env : Env) (url : String) (v : Option String) : Env :=
  { env with
    httpGet := fun u =>
      if u = url then (env.httpGet u).map (fun r => { r with linkIconHref := v })
      else env.httpGet u }

/-- A 200 page response declaring no icon link at all. -/
def respPlain : HttpResponse :=
  { status := 200, location := none, finalUrl := "https://example.com/a/b",
    linkIconHref := none, image := none }

/-- A `302 Found` answer whose `Location` header is the relative reference
`icons/fav.png`. -/
def respRedirect : HttpResponse :=
  { status := 302, location := some "icons/fav.png", finalUrl := "",
    linkIconHref := none, image := none }

/-- An environment where the page declares no icon link and the default
`favicon.png` HEAD probe redirects to a relative `Location`: the favicon
reference is found via the default locations, not the link tag. -/
def envRedirect : Env :=
  ⟨fun _ => Except.ok respPlain, fun _ => Except.ok respRedirect⟩

theorem strDataAppend (s t : String) : (s ++ t).data = s.data ++ t.data :=
  String.data_append s t

theorem strAppendAssoc (a b c : String) : a ++ b ++ c = a ++ (b ++ c) := by
  apply String.ext
  simp only [strDataAppend, List.append_assoc]

theorem isPrefixOf_append_self (p t : List Char) : p.isPrefixOf (p ++ t) = true :=
  List.isPrefixOf_iff_prefix.mpr (List.prefix_append p t)

theorem splitFirstChar_of_no_sep (sep : Char) (l r : List Char)
    (h : ∀ c ∈ l, ¬ c = sep) : splitFirstChar sep (l ++ sep :: r) = some (l, r) := by
  induction l with
  | nil => simp [splitFirstChar]
  | cons a as ih =>
    have ha : ¬ a = sep := h a (by simp)
    simp only [List.cons_append, splitFirstChar, if_neg ha, List.append_eq,
      ih (fun c hc => h c (List.mem_cons_of_mem a hc))]

theorem validSchemeChars_no_colon (l : List Char) (h : validSchemeChars l = true) :
    ∀ c ∈ l, ¬ c = ':' := by
  cases l with
  | nil => simp [validSchemeChars] at h
  | cons a as =>
    simp only [validSchemeChars, Bool.and_eq_true, List.all_eq_true] at h
    intro c hc hceq
    subst hceq
    rcases List.mem_cons.mp hc with h1 | h1
    · rw [← h1] at h
      exact absurd h.1 (by decide)
    · exact absurd (h.2 _ h1) (by decide)

theorem isAbsoluteUrl_of_scheme_colon (s rest : String)
    (hs : validSchemeChars s.data = true) (hr : startsWithStr rest "//" = true) :
    isAbsoluteUrl (s ++ ":" ++ rest) = true := by
  have hd : (s ++ ":" ++ rest).data = s.data ++ ':' :: rest.data := by
    simp only [strDataAppend, List.append_assoc]
    rfl
  have hpre : ['/', '/'].isPrefixOf rest.data = true := hr
  unfold isAbsoluteUrl
  rw [hd, splitFirstChar_of_no_sep ':' s.data rest.data (validSchemeChars_no_colon s.data hs)]
  simp only [Bool.and_eq_true]
  exact ⟨hs, hpre⟩

theorem isAbsoluteUrl_of_scheme_slashes (s x : String)
    (hs : validSchemeChars s.data = true) :
    isAbsoluteUrl (s ++ "://" ++ x) = true := by
  have h1 : s ++ "://" ++ x = s ++ ":" ++ ("//" ++ x) := by
    rw [strAppendAssoc, strAppendAssoc]
    have h2 : ("://" : String) ++ x = (":" : String) ++ ("//" ++ x) := by
      apply String.ext
      simp only [strDataAppend]
      rfl
    rw [h2, ← strAppendAssoc]
  rw [h1]
  apply isAbsoluteUrl_of_scheme_colon s ("//" ++ x) hs
  show ("//" : String).data.isPrefixOf (("//" : String) ++ x).data = true
  rw [strDataAppend]
  exact isPrefixOf_append_self _ _

theorem isAbsoluteUrl_of_scheme_slashes2 (s x : String)
    (hs : validSchemeChars s.data = true) :
    isAbsoluteUrl (s ++ ("://" ++ x)) = true := by
  rw [← strAppendAssoc]
  exact isAbsoluteUrl_of_scheme_slashes s x hs

/-- Every reference not starting with `http` is resolved to a string of the
shape `scheme://…`, provided the page URL parsed to a valid scheme. -/
theorem resolveFaviconUrl_absolute (parsed : ParsedUrl) (f : String)
    (hh : startsWithStr f "http" = false)
    (hs : validSchemeChars parsed.scheme.data = true) :
    isAbsoluteUrl (resolveFaviconUrl parsed f) = true := by
  unfold resolveFaviconUrl
  by_cases h1 : startsWithStr f "//" = true
  · rw [if_pos h1]
    exact isAbsoluteUrl_of_scheme_colon _ _ hs h1
  · rw [if_neg h1]
    by_cases h2 : startsWithStr f "/" = true
    · rw [if_pos h2, strAppendAssoc]
      exact isAbsoluteUrl_of_scheme_slashes _ _ hs
    · rw [if_neg h2]
      have h3 : (!(startsWithStr f "http")) = true := by rw [hh]; rfl
      rw [if_pos h3]
      simp only [strAppendAssoc]
      exact isAbsoluteUrl_of_scheme_slashes2 _ _ hs

/-- When the page GET succeeds with status 200 and the HTML declares a
nonempty icon `href`, `get_favicon_url` returns exactly the resolution of
that reference, with the page GET as its only request. -/
theorem get_favicon_url_link (env : Env) (url : String) (resp : HttpResponse) (f : String)
    (hget : env.httpGet url = Except.ok resp) (hst : resp.status = 200)
    (hhref : resp.linkIconHref = some f) (hf : ¬ f = "") :
    get_favicon_url env url =
      ([Event.netGet url], Except.ok (resolveFaviconUrl (urlparse url) f)) := by
  simp [get_favicon_url, bindE, hget, hst, hhref, hf]

/-- Claim C4, counterexample: with the page at `https://example.com/`
declaring the nonempty icon reference `httpicon.png`, `get_favicon_url`
returns `httpicon.png` verbatim, which is not a fully qualified absolute
URL — the relative branch is skipped because the reference starts with the
four characters `http`. -/
theorem favicon_url_absolute_counterexample :
    (get_favicon_url (envLink "httpicon.png") "https://example.com/").2 =
      Except.ok "httpicon.png" ∧
    ¬ "httpicon.png" = "" ∧
    isAbsoluteUrl "httpicon.png" = false :=
  ⟨rfl, by decide, rfl⟩

/-- A reference that starts with `http` fails all three resolution tests and
is returned verbatim. -/
theorem resolveFaviconUrl_http (parsed : ParsedUrl) (f : String)
    (hf : startsWithStr f "http" = true) : resolveFaviconUrl parsed f = f := by
  obtain ⟨rest, hd⟩ : ∃ rest, f.data = 'h' :: rest := by
    cases hd : f.data with
    | nil =>
      rw [startsWithStr, hd] at hf
      simp [List.isPrefixOf] at hf
    | cons c tail =>
      rw [startsWithStr, hd] at hf
      have hlit : ("http" : String).data = ['h', 't', 't', 'p'] := rfl
      rw [hlit] at hf
      simp only [List.isPrefixOf, Bool.and_eq_true, beq_iff_eq] at hf
      exact ⟨tail, by rw [hf.1]⟩
  have hch2 : startsWithStr f "//" = false := by
    rw [startsWithStr, hd]
    have hlit : ("//" : String).data = ['/', '/'] := rfl
    rw [hlit]
    simp [List.isPrefixOf]
  have hch1 : startsWithStr f "/" = false := by
    rw [startsWithStr, hd]
    have hlit : ("/" : String).data = ['/'] := rfl
    rw [hlit]
    simp [List.isPrefixOf]
  simp [resolveFaviconUrl, hch2, hch1, hf]

theorem bindE_ok {α β : Type} {x : List Event × Except PyError α}
    {f : α → List Event × Except PyError β} {b : β}
    (h : (bindE x f).2 = Except.ok b) :
    ∃ a, x.2 = Except.ok a ∧ (f a).2 = Except.ok b := by
  obtain ⟨evs, r⟩ := x
  cases r with
  | error e => simp [bindE] at h
  | ok a => exact ⟨a, rfl, by simpa [bindE] using h⟩

/-- Whenever `get_favicon_url` returns a nonempty value, that value is the
resolution of some nonempty found reference — whether it came from the link
tag or from the default-location probes. -/
theorem get_favicon_url_ok_shape (env : Env) (url : String) (r : String)
    (hok : (get_favicon_url env url).2 = Except.ok r) (hr : ¬ r = "") :
    ∃ f, ¬ f = "" ∧ r = resolveFaviconUrl (urlparse url) f := by
  simp only [get_favicon_url] at hok
  rcases bindE_ok hok with ⟨resp, _, h1⟩
  rcases bindE_ok h1 with ⟨f, _, h2⟩
  have hif : (if f = "" then "" else resolveFaviconUrl (urlparse url) f) = r :=
    Except.ok.inj h2
  by_cases hf : f = ""
  · rw [hf] at hif
    simp at hif
    exact absurd hif.symm hr
  · rw [if_neg hf] at hif
    exact ⟨f, hf, hif.symm⟩

/-- Claim C4 (amended): for every page URL that parses to a valid scheme,
every nonempty value returned by `get_favicon_url` is the resolution of a
nonempty favicon reference found somewhere (link tag or default locations);
when that reference does not start with `http` the returned value is a fully
qualified absolute URL, and when it does start with `http` the reference is
returned verbatim, with no absoluteness guarantee. -/
theorem favicon_url_absolute_amended (env : Env) (url : String) (r : String)
    (hs : validSchemeChars (urlparse url).scheme.data = true)
    (hok : (get_favicon_url env url).2 = Except.ok r) (hr : ¬ r = "") :
    ∃ f, ¬ f = "" ∧ r = resolveFaviconUrl (urlparse url) f ∧
      (startsWithStr f "http" = false → isAbsoluteUrl r = true) ∧
      (startsWithStr f "http" = true → r = f) := by
  rcases get_favicon_url_ok_shape env url r hok hr with ⟨f, hf, hres⟩
  refine ⟨f, hf, hres, ?_, ?_⟩
  · intro hh
    rw [hres]
    exact resolveFaviconUrl_absolute (urlparse url) f hh hs
  · intro hh
    rw [hres]
    exact resolveFaviconUrl_http (urlparse url) f hh

theorem favicon_url_absolute_amended_witness :
    ∃ f, ¬ f = "" ∧
      "https://example.com//a/icons/fav.png" =
        resolveFaviconUrl (urlparse "https://example.com/a/b") f ∧
      (startsWithStr f "http" = false →
        isAbsoluteUrl "https://example.com//a/icons/fav.png" = true) ∧
      (startsWithStr f "http" = true →
        "https://example.com//a/icons/fav.png" = f) :=
  favicon_url_absolute_amended envRedirect "https://example.com/a/b"
    "https://example.com//a/icons/fav.png" rfl rfl (by decide)

/-- Claim C5: a favicon reference starting with none of `//`, `/`, `http` is
resolved against the original page's directory path — the head of
`os.path.split` on the page path, i.e. the path with its last segment
removed — under the page's scheme and host, and (for a valid page scheme)
the result is an absolute URL. -/
theorem relative_ref_resolution (parsed : ParsedUrl) (f : String)
    (h2 : startsWithStr f "//" = false) (h1 : startsWithStr f "/" = false)
    (hh : startsWithStr f "http" = false) :
    resolveFaviconUrl parsed f =
      parsed.scheme ++ "://" ++ parsed.netloc ++ "/" ++ (osPathSplit parsed.path).1 ++ "/" ++ f ∧
    (validSchemeChars parsed.scheme.data = true →
      isAbsoluteUrl (resolveFaviconUrl parsed f) = true) := by
  constructor
  · simp [resolveFaviconUrl, h2, h1, hh]
  · intro hs
    exact resolveFaviconUrl_absolute parsed f hh hs

theorem relative_ref_resolution_witness :
    resolveFaviconUrl (urlparse "https://example.com/dir/page.html") "img/fav.png" =
      (urlparse "https://example.com/dir/page.html").scheme ++ "://" ++
        (urlparse "https://example.com/dir/page.html").netloc ++ "/" ++
        (osPathSplit (urlparse "https://example.com/dir/page.html").path).1 ++ "/" ++
        "img/fav.png" ∧
    isAbsoluteUrl
      (resolveFaviconUrl (urlparse "https://example.com/dir/page.html") "img/fav.png") = true :=
  ⟨(relative_ref_resolution _ "img/fav.png" rfl rfl rfl).1,
   (relative_ref_resolution _ "img/fav.png" rfl rfl rfl).2 rfl⟩

/-- Claim C1: in interwiki mode every exception raised while processing one
configuration-file entry is caught at the per-entry boundary, logged at
error level, and the scan continues: the scan always produces exactly one
handled trace per input line, a failing entry's trace is its events followed
by the error log, and a line's outcome never changes how the remaining
lines are scanned. -/
theorem interwiki_per_entry_isolation (env : Env) (fs : List String) (dir : String)
    (force : Bool) (lines : List String) :
    ((get_dokuwiki_interwiki_icons env fs dir force lines).1).length = lines.length ∧
    (∀ line evs fs2 e,
      processEntryBody env fs dir force line = (evs, fs2, Except.error e) →
        handleEntry env fs dir force line = (evs ++ [Event.logError (errMsg e)], fs2)) ∧
    (∀ line rest,
      (get_dokuwiki_interwiki_icons env fs dir force (line :: rest)).1 =
        (handleEntry env fs dir force line).1 ::
          (get_dokuwiki_interwiki_icons env (handleEntry env fs dir force line).2
            dir force rest).1) := by
  refine ⟨?_, ?_, ?_⟩
  · induction lines generalizing fs with
    | nil => rfl
    | cons l ls ih => simp only [get_dokuwiki_interwiki_icons, List.length_cons, ih]
  · intro line evs fs2 e h
    simp only [handleEntry, h]
  · intro line rest
    rfl

theorem interwiki_per_entry_isolation_witness :
    handleEntry envNoNet [] "icons" false "w1 https://w1.example" =
      ([Event.netGet "https://w1.example/"] ++
        [Event.logError (errMsg (PyError.connectionError "https://w1.example/"))], []) :=
  (interwiki_per_entry_isolation envNoNet [] "icons" false []).2.1
    "w1 https://w1.example" [Event.netGet "https://w1.example/"] []
    (PyError.connectionError "https://w1.example/") rfl

/-- Claim C2, counterexample: 304 is not in the 2xx range, yet `get_favicon`
does not raise an HTTP error for it — `raise_for_status` only raises for
4xx/5xx — and instead decodes the body and saves the file. -/
theorem get_favicon_non2xx_counterexample :
    ¬ (200 ≤ 304 ∧ 304 < 300) ∧
    (get_favicon env304 "https://example.com/favicon.ico" "favicon.ico" 0).2 =
      Except.ok () ∧
    Event.fsWrite "favicon.ico" ∈
      (get_favicon env304 "https://example.com/favicon.ico" "favicon.ico" 0).1 :=
  ⟨by decide, rfl, by decide⟩

/-- Claim C2 (amended): `get_favicon` raises an HTTP error carrying the
status before attempting to decode the body exactly when the status is in
400-599; a non-2xx status outside that range (such as 304) is not raised and
the body is decoded.  On a 4xx/5xx answer the trace stops at the GET: no
decode, resize or save event follows. -/
theorem get_favicon_raises_4xx_5xx (env : Env) (url filename : String) (resize : Nat)
    (resp : HttpResponse) (hget : env.httpGet url = Except.ok resp)
    (h4 : 400 ≤ resp.status) (h6 : resp.status < 600) :
    get_favicon env url filename resize =
      ([Event.logDebug ("trying to get favicon from " ++ url), Event.netGet url],
       Except.error (PyError.httpStatusError resp.status)) := by
  have h200 : resp.status ≠ 200 := by omega
  simp [get_favicon, bindE, raiseForStatus, hget, h200, h4, h6]

theorem get_favicon_raises_4xx_5xx_witness :
    get_favicon env404 "https://example.com/favicon.ico" "f.ico" 0 =
      ([Event.logDebug ("trying to get favicon from " ++ "https://example.com/favicon.ico"),
        Event.netGet "https://example.com/favicon.ico"],
       Except.error (PyError.httpStatusError 404)) :=
  get_favicon_raises_4xx_5xx env404 "https://example.com/favicon.ico" "f.ico" 0 resp404
    rfl (by decide) (by decide)

/-- Claim C3, counterexample: `ftp://example.com` already has a scheme, yet
the URL-list driver's normalization changes it, because the code tests
`url.startswith('http')` rather than scheme presence. -/
theorem scheme_normalization_counterexample :
    hasScheme "ftp://example.com" = true ∧
    normalizeUrl "ftp://example.com" = "https://" ++ "ftp://example.com" ∧
    ¬ normalizeUrl "ftp://example.com" = "ftp://example.com" :=
  ⟨rfl, rfl, by decide⟩

theorem head_append_of_head {l1 l2 : List Event} {a : Event}
    (h : l1.head? = some a) : (l1 ++ l2).head? = some a := by
  cases l1 with
  | nil => simp at h
  | cons b t => simpa using h

/-- The first event of `get_favicon_url` is always the GET of the page URL. -/
theorem get_favicon_url_head (env : Env) (u : String) :
    (get_favicon_url env u).1.head? = some (Event.netGet u) := by
  cases h : env.httpGet u with
  | error e => simp [get_favicon_url, bindE, h]
  | ok resp => simp [get_favicon_url, bindE, h]

/-- The first event of one URL-list iteration is the GET of the normalized
page URL: normalization happens before any request. -/
theorem processUrlBody_head (env : Env) (url od : String) (png : Bool) (resize : Nat)
    (download : Bool) :
    (processUrlBody env url od png resize download).1.head? =
      some (Event.netGet (normalizeUrl url)) := by
  have hh := get_favicon_url_head env (normalizeUrl url)
  simp only [processUrlBody]
  cases hg : get_favicon_url env (normalizeUrl url) with
  | mk evs r =>
    rw [hg] at hh
    cases r with
    | error e => simpa using hh
    | ok fav =>
      by_cases hf : fav = ""
      · simpa [hf] using hh
      · by_cases hd : download = true
        · simp only [hd, if_neg hf, if_true]
          exact head_append_of_head (head_append_of_head hh)
        · simp only [Bool.not_eq_true] at hd
          simp only [hd, if_neg hf, if_false]
          exact head_append_of_head hh

/-- Claim C3 (amended): the URL-list driver prefixes `https://` exactly when
the URL does not start with the four characters `http` (rather than when it
lacks a scheme), and the first request of each iteration is the GET of the
normalized URL. -/
theorem url_normalization_amended (env : Env) (url od : String) (png download : Bool)
    (resize : Nat) :
    (startsWithStr url "http" = true → normalizeUrl url = url) ∧
    (startsWithStr url "http" = false → normalizeUrl url = "https://" ++ url) ∧
    (processUrlBody env url od png resize download).1.head? =
      some (Event.netGet (normalizeUrl url)) := by
  refine ⟨?_, ?_, processUrlBody_head env url od png resize download⟩
  · intro h
    simp [normalizeUrl, h]
  · intro h
    simp [normalizeUrl, h]

theorem url_normalization_amended_witness :
    normalizeUrl "ftp://w.example" = "https://" ++ "ftp://w.example" :=
  (url_normalization_amended envNoNet "ftp://w.example" "" false false 0).2.1 rfl

/-- Claim C6: for a decoded image and a positive resize request, an ICO
source natively embedding a frame of exactly the requested square size is
extracted directly (no resampling event), and every other case resamples
bicubically (no extraction event). -/
theorem resize_dispatch (env : Env) (url fn : String) (size : Nat) (resp : HttpResponse)
    (img : PyImage) (hget : env.httpGet url = Except.ok resp)
    (hst : ¬ (400 ≤ resp.status ∧ resp.status < 600)) (himg : resp.image = some img)
    (hs : 0 < size) :
    if img.format = "ICO" ∧ (size, size) ∈ img.icoSizes then
      Event.icoExtract ∈ (get_favicon env url fn size).1 ∧
      ¬ Event.resampleBicubic ∈ (get_favicon env url fn size).1
    else
      Event.resampleBicubic ∈ (get_favicon env url fn size).1 ∧
      ¬ Event.icoExtract ∈ (get_favicon env url fn size).1 := by
  have hrs : (if resp.status ≠ 200 then raiseForStatus resp.status else Except.ok ()) =
      Except.ok () := by
    by_cases h : resp.status = 200
    · simp [h]
    · simp [h, raiseForStatus, hst]
  by_cases hfmt : img.format = "ICO" ∧ (size, size) ∈ img.icoSizes
  · rw [if_pos hfmt]
    constructor <;> simp [get_favicon, bindE, hget, hrs, himg, hs, hfmt]
  · rw [if_neg hfmt]
    constructor <;> simp [get_favicon, bindE, hget, hrs, himg, hs, hfmt]

theorem resize_dispatch_witness :
    if icoImg.format = "ICO" ∧ (16, 16) ∈ icoImg.icoSizes then
      Event.icoExtract ∈ (get_favicon envIco "https://example.com/favicon.ico" "w.png" 16).1 ∧
      ¬ Event.resampleBicubic ∈
        (get_favicon envIco "https://example.com/favicon.ico" "w.png" 16).1
    else
      Event.resampleBicubic ∈
        (get_favicon envIco "https://example.com/favicon.ico" "w.png" 16).1 ∧
      ¬ Event.icoExtract ∈ (get_favicon envIco "https://example.com/favicon.ico" "w.png" 16).1 :=
  resize_dispatch envIco "https://example.com/favicon.ico" "w.png" 16 respIco icoImg
    rfl (by decide) rfl (by decide)

/-- Claim C7: in interwiki mode with `force = false`, a valid entry whose
destination `{name}.png` already exists produces exactly one info-level skip
message: no network request, no error log, no file write, and the
filesystem is unchanged. -/
theorem interwiki_skip_existing (env : Env) (fs : List String) (dir line name rest2 : String)
    (hm : interwikiMatch line = some (name, rest2))
    (hex : fs.contains (osPathJoin dir (name ++ ".png")) = true) :
    handleEntry env fs dir false line =
      ([Event.logInfo (name ++ ": icon exists - skip")], fs) ∧
    (∀ u, ¬ Event.netGet u ∈ (handleEntry env fs dir false line).1 ∧
          ¬ Event.netHead u ∈ (handleEntry env fs dir false line).1) ∧
    (∀ m, ¬ Event.logError m ∈ (handleEntry env fs dir false line).1) ∧
    (∀ fn, ¬ Event.fsWrite fn ∈ (handleEntry env fs dir false line).1) := by
  have hb : processEntryBody env fs dir false line =
      ([Event.logInfo (name ++ ": icon exists - skip")], fs, Except.ok ()) := by
    have hex2 : osPathJoin dir (name ++ ".png") ∈ fs := by simpa using hex
    simp [processEntryBody, hm, hex2]
  have hh : handleEntry env fs dir false line =
      ([Event.logInfo (name ++ ": icon exists - skip")], fs) := by
    simp only [handleEntry, hb]
  refine ⟨hh, ?_, ?_, ?_⟩ <;> simp [hh]

theorem interwiki_skip_existing_witness :
    handleEntry envNoNet ["icons/w1.png"] "icons" false "w1 https://w1.example" =
      ([Event.logInfo ("w1" ++ ": icon exists - skip")], ["icons/w1.png"]) :=
  (interwiki_skip_existing envNoNet ["icons/w1.png"] "icons" "w1 https://w1.example"
    "w1" "https://w1.example" rfl rfl).1

/-- Claim C8: `get_filename` derives the name exactly as specified — host
split on `.`, excluded tokens `www`, `com`, `org`, `net`, `ru` removed,
joined with `-`, favicon extension appended — and in particular maps the
spec's worked example to `example.ico`. -/
theorem filename_derivation :
    (∀ url favicon_url png,
      get_filename url favicon_url png = deriveFilenameSpec url favicon_url png) ∧
    get_filename "https://www.example.com" "https://example.com/favicon.ico" false =
      "example.ico" :=
  ⟨fun _ _ _ => rfl, rfl⟩

theorem mem_bindE {α β : Type} {a : Event} {x : List Event × Except PyError α}
    {f : α → List Event × Except PyError β} (h : a ∈ (bindE x f).1) :
    a ∈ x.1 ∨ ∃ v, x.2 = Except.ok v ∧ a ∈ (f v).1 := by
  obtain ⟨evs, r⟩ := x
  cases r with
  | error e => exact Or.inl (by simpa using h)
  | ok v =>
    simp only [bindE, List.mem_append] at h
    rcases h with h | h
    · exact Or.inl (by simpa using h)
    · exact Or.inr ⟨v, rfl, h⟩

theorem mem_bindE_fst {α β : Type} {a : Event} {x : List Event × Except PyError α}
    (f : α → List Event × Except PyError β) (h : a ∈ x.1) : a ∈ (bindE x f).1 := by
  obtain ⟨evs, r⟩ := x
  cases r with
  | error e => simpa using h
  | ok v =>
    simp only [bindE, List.mem_append]
    exact Or.inl (by simpa using h)

theorem bindE_fst_head {α β : Type} {x : List Event × Except PyError α}
    (f : α → List Event × Except PyError β) (a : Event) (tl : List Event)
    (h : x.1 = a :: tl) : ∃ tl2, (bindE x f).1 = a :: tl2 := by
  obtain ⟨evs, r⟩ := x
  cases r with
  | error e => exact ⟨tl, by simpa using h⟩
  | ok v =>
    refine ⟨tl ++ (f v).1, ?_⟩
    simp only at h
    simp [bindE, h]

/-- The one event of a default-location probe is its HEAD request. -/
theorem tryDefaultLoc_fst (e : Env) (b ext : String) :
    (tryDefaultLoc e b ext).1 = [Event.netHead (b ++ ext)] := rfl

/-- A nonempty default-location loop begins with the HEAD of its first
candidate. -/
theorem faviconFromDefaults_cons_head (e : Env) (b ext : String) (rest : List String) :
    ∃ tl, (faviconFromDefaults e b (ext :: rest)).1 =
      Event.netHead (b ++ ext) :: tl := by
  unfold faviconFromDefaults
  exact bindE_fst_head _ _ [] (tryDefaultLoc_fst e b ext)

/-- Every event of the default-location loop is a HEAD request. -/
theorem faviconFromDefaults_events (e : Env) (b : String) (exts : List String) :
    ∀ x ∈ (faviconFromDefaults e b exts).1, ∃ u, x = Event.netHead u := by
  induction exts with
  | nil => intro x hx; simp [faviconFromDefaults] at hx
  | cons ext rest ih =>
    intro x hx
    unfold faviconFromDefaults at hx
    rcases mem_bindE hx with h | ⟨v, _, h⟩
    · rw [tryDefaultLoc_fst] at h
      simp only [List.mem_singleton] at h
      exact ⟨_, h⟩
    · cases v with
      | some u => simp at h
      | none => exact ih x h

theorem mem_ite_fst {α : Type} {c : Prop} [Decidable c] {x : Event}
    {a b : List Event × α} (h : x ∈ (if c then a else b).1) : x ∈ a.1 ∨ x ∈ b.1 := by
  by_cases hc : c
  · rw [if_pos hc] at h
    exact Or.inl h
  · rw [if_neg hc] at h
    exact Or.inr h

/-- Every event of `get_favicon_url` is the page GET or a HEAD probe. -/
theorem get_favicon_url_events (env : Env) (u : String) :
    ∀ x ∈ (get_favicon_url env u).1,
      x = Event.netGet u ∨ ∃ v, x = Event.netHead v := by
  intro x hx
  unfold get_favicon_url at hx
  rcases mem_bindE hx with h | ⟨resp, _, h⟩
  · simp only [List.mem_singleton] at h
    exact Or.inl h
  · rcases mem_bindE h with h2 | ⟨f, _, h2⟩
    · rcases mem_ite_fst h2 with h3 | h3
      · exact Or.inr (faviconFromDefaults_events _ _ _ x h3)
      · simp at h3
    · simp at h2

/-- With the download flag unset, one URL-list iteration's trace is the
locator trace, possibly followed by the print of the nonempty resolved
favicon URL. -/
theorem processUrlBody_nodl_fst (env : Env) (url od : String) (png : Bool) (resize : Nat) :
    (processUrlBody env url od png resize false).1 =
      (get_favicon_url env (normalizeUrl url)).1 ∨
    ∃ f, ¬ f = "" ∧ (get_favicon_url env (normalizeUrl url)).2 = Except.ok f ∧
      (processUrlBody env url od png resize false).1 =
        (get_favicon_url env (normalizeUrl url)).1 ++ [Event.printOut f] := by
  simp only [processUrlBody]
  cases hg : get_favicon_url env (normalizeUrl url) with
  | mk evs r =>
    cases r with
    | error e => exact Or.inl rfl
    | ok fav =>
      by_cases hf : fav = ""
      · left
        simp [hf]
      · right
        exact ⟨fav, hf, rfl, by simp [hf]⟩

/-- The default-location loop only consults `httpHead`. -/
theorem faviconFromDefaults_congr (e1 e2 : Env) (h : e1.httpHead = e2.httpHead)
    (basename : String) (exts : List String) :
    faviconFromDefaults e1 basename exts = faviconFromDefaults e2 basename exts := by
  induction exts with
  | nil => rfl
  | cons ext rest ih => simp only [faviconFromDefaults, tryDefaultLoc, h, ih]


theorem mem_bindE_snd {α β : Type} {a : Event} {x : List Event × Except PyError α}
    {f : α → List Event × Except PyError β} (v : α)
    (hv : x.2 = Except.ok v) (h : a ∈ (f v).1) : a ∈ (bindE x f).1 := by
  obtain ⟨evs, r⟩ := x
  cases r with
  | error e => simp at hv
  | ok w =>
    simp only at hv
    have hw : w = v := by
      injection hv
    subst hw
    simp only [bindE, List.mem_append]
    exact Or.inr h

/-- Whenever the page GET answers and the link search leaves the reference
empty, `get_favicon_url` probes the first default location
`{scheme}://{netloc}/favicon.png`. -/
theorem get_favicon_url_probes (env : Env) (url : String) (resp : HttpResponse)
    (hget : env.httpGet url = Except.ok resp)
    (hempty : (if resp.status = 200 then
        (match resp.linkIconHref with
         | some h => h
         | none => "")
      else "") = "") :
    Event.netHead ((urlparse url).scheme ++ "://" ++ (urlparse url).netloc ++
        "/favicon." ++ "png")
      ∈ (get_favicon_url env url).1 := by
  obtain ⟨tl, htl⟩ := faviconFromDefaults_cons_head env
    ((urlparse url).scheme ++ "://" ++ (urlparse url).netloc ++ "/favicon.") "png" ["ico"]
  have hmem : Event.netHead ((urlparse url).scheme ++ "://" ++ (urlparse url).netloc ++
      "/favicon." ++ "png") ∈
      (faviconFromDefaults env
        ((urlparse url).scheme ++ "://" ++ (urlparse url).netloc ++ "/favicon.")
        ["png", "ico"]).1 := by
    rw [htl]
    exact List.mem_cons_self _ _
  unfold get_favicon_url
  refine mem_bindE_snd resp ?_ ?_
  · simpa using hget
  · show Event.netHead ((urlparse url).scheme ++ "://" ++ (urlparse url).netloc ++
        "/favicon." ++ "png") ∈
      (bindE
        (if (if resp.status = 200 then
            (match resp.linkIconHref with
             | some h => h
             | none => "")
          else "") = "" then
          faviconFromDefaults env
            ((urlparse url).scheme ++ "://" ++ (urlparse url).netloc ++ "/favicon.")
            ["png", "ico"]
        else ([], Except.ok (if resp.status = 200 then
            (match resp.linkIconHref with
             | some h => h
             | none => "")
          else "")))
        (fun f => ([], Except.ok (if f = "" then "" else resolveFaviconUrl (urlparse url) f)))).1
    rw [hempty]
    simp only [if_pos rfl]
    exact mem_bindE_fst _ hmem

/-- Claim C9: a `<link rel="icon">` whose `href` is present but empty is
treated exactly like no declared reference — the locator's behaviour is
identical to the absent-`href` case, and (whenever the page GET answers at
all) it probes the default location `/favicon.png`. -/
theorem empty_href_like_absent (env : Env) (url : String) :
    get_favicon_url (envSetHref env url (some "")) url =
      get_favicon_url (envSetHref env url none) url ∧
    (∀ resp, env.httpGet url = Except.ok resp →
      Event.netHead ((urlparse url).scheme ++ "://" ++ (urlparse url).netloc ++
          "/favicon." ++ "png")
        ∈ (get_favicon_url (envSetHref env url (some "")) url).1) := by
  have hhead : (envSetHref env url (some "")).httpHead = (envSetHref env url none).httpHead :=
    rfl
  constructor
  · cases hg : env.httpGet url with
    | error e =>
      have h1 : (envSetHref env url (some "")).httpGet url = Except.error e := by
        simp [envSetHref, hg, Except.map]
      have h2 : (envSetHref env url none).httpGet url = Except.error e := by
        simp [envSetHref, hg, Except.map]
      simp [get_favicon_url, bindE, h1, h2]
    | ok resp =>
      have h1 : (envSetHref env url (some "")).httpGet url =
          Except.ok { resp with linkIconHref := some "" } := by
        simp [envSetHref, hg, Except.map]
      have h2 : (envSetHref env url none).httpGet url =
          Except.ok { resp with linkIconHref := none } := by
        simp [envSetHref, hg, Except.map]
      by_cases hst : resp.status = 200
      · simp [get_favicon_url, bindE, h1, h2, hst,
          faviconFromDefaults_congr _ _ hhead]
      · simp [get_favicon_url, bindE, h1, h2, hst,
          faviconFromDefaults_congr _ _ hhead]
  · intro resp hresp
    have h1 : (envSetHref env url (some "")).httpGet url =
        Except.ok { resp with linkIconHref := some "" } := by
      simp [envSetHref, hresp, Except.map]
    apply get_favicon_url_probes (envSetHref env url (some "")) url
      { resp with linkIconHref := some "" } h1
    by_cases hst : resp.status = 200 <;> simp [hst]

theorem empty_href_like_absent_witness :
    Event.netHead ((urlparse "https://example.com").scheme ++ "://" ++
        (urlparse "https://example.com").netloc ++ "/favicon." ++ "png")
      ∈ (get_favicon_url (envSetHref (envLink "x") "https://example.com" (some ""))
          "https://example.com").1 :=
  (empty_href_like_absent (envLink "x") "https://example.com").2 (respLink "x") rfl

/-- Claim C10: with the download flag unset, `get_favicons` writes no file
and derives no filename for any URL: every event of its trace is a page GET,
a HEAD probe, the print of a nonempty resolved favicon URL, or an error-log
line; in particular no `fsWrite` and no `deriveName` event ever occurs. -/
theorem no_download_frame (env : Env) (urls : List String) (od : String) (png : Bool)
    (resize : Nat) :
    (∀ x ∈ get_favicons env urls od png resize false,
      (∃ u, x = Event.netGet u) ∨ (∃ u, x = Event.netHead u) ∨
      (∃ s, x = Event.printOut s ∧ ¬ s = "") ∨ (∃ m, x = Event.logError m)) ∧
    (∀ fn, ¬ Event.fsWrite fn ∈ get_favicons env urls od png resize false) ∧
    (∀ u v, ¬ Event.deriveName u v ∈ get_favicons env urls od png resize false) := by
  have main : ∀ (us : List String) (od2 : String),
      ∀ x ∈ get_favicons env us od2 png resize false,
        (∃ u, x = Event.netGet u) ∨ (∃ u, x = Event.netHead u) ∨
        (∃ s, x = Event.printOut s ∧ ¬ s = "") ∨ (∃ m, x = Event.logError m) := by
    intro us
    induction us with
    | nil =>
      intro od2 x hx
      simp [get_favicons] at hx
    | cons url rest ih =>
      intro od2 x hx
      have hshape := processUrlBody_nodl_fst env url od2 png resize
      have hfromloc : ∀ y, y ∈ (get_favicon_url env (normalizeUrl url)).1 →
          (∃ u, y = Event.netGet u) ∨ (∃ u, y = Event.netHead u) ∨
          (∃ s, y = Event.printOut s ∧ ¬ s = "") ∨ (∃ m, y = Event.logError m) := by
        intro y hy
        rcases get_favicon_url_events env (normalizeUrl url) y hy with h | ⟨v, h⟩
        · exact Or.inl ⟨_, h⟩
        · exact Or.inr (Or.inl ⟨v, h⟩)
      have hbody : ∀ y, y ∈ (processUrlBody env url od2 png resize false).1 →
          (∃ u, y = Event.netGet u) ∨ (∃ u, y = Event.netHead u) ∨
          (∃ s, y = Event.printOut s ∧ ¬ s = "") ∨ (∃ m, y = Event.logError m) := by
        intro y hy
        rcases hshape with h | ⟨f, hf, _, h⟩
        · rw [h] at hy
          exact hfromloc y hy
        · rw [h] at hy
          rcases List.mem_append.mp hy with hy1 | hy1
          · exact hfromloc y hy1
          · simp only [List.mem_singleton] at hy1
            exact Or.inr (Or.inr (Or.inl ⟨f, hy1, hf⟩))
      simp only [get_favicons] at hx
      rcases hpb : processUrlBody env url od2 png resize false with ⟨evs, odn, r⟩
      rw [hpb] at hx
      have hevs : ∀ y, y ∈ evs →
          (∃ u, y = Event.netGet u) ∨ (∃ u, y = Event.netHead u) ∨
          (∃ s, y = Event.printOut s ∧ ¬ s = "") ∨ (∃ m, y = Event.logError m) := by
        intro y hy
        exact hbody y (by rw [hpb]; exact hy)
      cases r with
      | ok v =>
        rcases List.mem_append.mp hx with hx1 | hx1
        · exact hevs x hx1
        · exact ih odn x hx1
      | error e =>
        rcases List.mem_append.mp hx with hx1 | hx1
        · rcases List.mem_append.mp hx1 with hx2 | hx2
          · exact hevs x hx2
          · simp only [List.mem_singleton] at hx2
            exact Or.inr (Or.inr (Or.inr ⟨errMsg e, hx2⟩))
        · exact ih odn x hx1
  refine ⟨main urls od, ?_, ?_⟩
  · intro fn hmem
    rcases main urls od _ hmem with ⟨u, h⟩ | ⟨u, h⟩ | ⟨s, h, _⟩ | ⟨m, h⟩ <;> simp at h
  · intro u v hmem
    rcases main urls od _ hmem with ⟨w, h⟩ | ⟨w, h⟩ | ⟨s, h, _⟩ | ⟨m, h⟩ <;> simp at h

theorem no_download_frame_witness :
    (∃ u, Event.netGet "https://example.com" = Event.netGet u) ∨
    (∃ u, Event.netGet "https://example.com" = Event.netHead u) ∨
    (∃ s, Event.netGet "https://example.com" = Event.printOut s ∧ ¬ s = "") ∨
    (∃ m, Event.netGet "https://example.com" = Event.logError m) :=
  (no_download_frame envNoNet ["example.com"] "" true 0).1
    (Event.netGet "https://example.com") (by decide)
